import Mathlib

/-!
Verification of `gr_tools/run_sim.py`, a thin orchestration layer over the
GNU Radio flowgraph runtime.  The module builds small linear flowgraphs
(file source or message strobe, a caller-supplied component, a `head`
item limiter, and a file sink), wires them, and drives them to a bounded
item count.

The embedding below models each run function as a pure function producing
a `RunOutcome`: the ordered trace of externally visible events
(node construction, output-file creation, connections, start/run), the
error raised, if any, and the observable result of the run (item count
written to the output file, number of poll-loop sleeps, whether control
returned to the caller).  The caller-supplied component is duck-typed and
external, so it enters the model only through its observable output:
the number of items its output port delivers (file-driven path), or the
item count the limiter has passed as a function of poll steps
(message-driven path).  Behaviour of the external GNU Radio blocks
(`file_source`, `message_strobe`, `head`, `file_sink`, `top_block`) is
modelled from the spec where it decides a claim, and each such place is
marked `Modelled from the spec:` in its doc comment.
-/

/-- GNU Radio runtime size descriptor for a char/byte item
(`gr.sizeof_char`, 1 byte). -/
def gr_sizeof_char : Nat := 1

/-- GNU Radio runtime size descriptor for a float item
(`gr.sizeof_float`, 4 bytes). -/
def gr_sizeof_float : Nat := 4

/-- GNU Radio runtime size descriptor for a complex item
(`gr.sizeof_gr_complex`, two 32-bit floats, 8 bytes). -/
def gr_sizeof_gr_complex : Nat := 8

/-- GNU Radio runtime size descriptor for a short item
(`gr.sizeof_short`, 2 bytes). -/
def gr_sizeof_short : Nat := 2

/-- GNU Radio runtime size descriptor for an int item
(`gr.sizeof_int`, 4 bytes). -/
def gr_sizeof_int : Nat := 4

/-- `DTYPE` dict (run_sim.py lines 32-38): maps a semantic element-type
name to the runtime's binary size descriptor.  A name outside the dict's
keys is an unsupported tag: lookup yields `none` (Python: `KeyError`). -/
def DTYPE : String → Option Nat
  | "BYTE" => some (gr_sizeof_char * 1)
  | "FLOAT" => some gr_sizeof_float
  | "COMPLEX" => some gr_sizeof_gr_complex
  | "SHORT" => some gr_sizeof_short
  | "INT" => some gr_sizeof_int
  | _ => none

/-- `FILE_EXT` dict (run_sim.py lines 53-59): file-extension convention
associated with each semantic element-type name. -/
def FILE_EXT : String → Option String
  | "COMPLEX" => some (".32cf")
  | "BYTE" => some (".byte")
  | "FLOAT" => some (".32rf")
  | "INT" => some (".32i")
  | "SHORT" => some (".16i")
  | _ => none

/-- A file specification (`file_spec` dict): storage path, element type,
and end-of-file repeat flag.  The `type` field holds the runtime size
descriptor produced by a `DTYPE` lookup; `none` models a value that is
not a valid descriptor (an unsupported element type tag), which the
runtime's block constructors reject.  `rep` embeds the dict key
`"repeat"` (a Lean keyword). -/
structure FileSpec where
  path : String
  type : Option Nat
  rep : Bool
  deriving DecidableEq, Repr

/-- A message specification (`msg_spec` dict): text payload and emission
period in milliseconds (dict keys `"message"` and `"period(ms)"`). -/
structure MsgSpec where
  message : String
  period_ms : Nat
  deriving DecidableEq, Repr

/-- An output specification (`out_spec` dict): storage path, element
type descriptor (as in `FileSpec.type`), and requested item count. -/
structure OutSpec where
  path : String
  type : Option Nat
  n_items : Nat
  deriving DecidableEq, Repr

/-- `DEFAULT_FILE_SPEC` (run_sim.py lines 39-43). -/
def DEFAULT_FILE_SPEC : FileSpec :=
  { path := "", type := some (gr_sizeof_char * 1), rep := true }

/-- `DEFAULT_MESSAGE_SPEC` (run_sim.py lines 44-47). -/
def DEFAULT_MESSAGE_SPEC : MsgSpec :=
  { message := "hello world", period_ms := 300 }

/-- `DEFAULT_OUT_SPEC` (run_sim.py lines 48-52). -/
def DEFAULT_OUT_SPEC : OutSpec :=
  { path := "", type := DTYPE ("BYTE"), n_items := 10000 }

/-- A data/message port index on a node. -/
abbrev Port := Nat

/-- The flowgraph nodes the two run functions construct.  The
caller-supplied processing component is opaque (duck-typed in the
source), so it is a single constructor. -/
inductive Node where
  | fileSource (itemsize : Nat) (path : String) (rep : Bool)
  | messageStrobe (msg : String) (period_ms : Nat)
  | head (itemsize : Nat) (nitems : Nat)
  | fileSink (itemsize : Nat) (path : String)
  | component
  deriving DecidableEq, Repr

/-- Externally visible events of a run, in program order: block
construction, creation of the output file (the `file_sink` constructor
opens/truncates its path), a data connection `top.connect`, a message
connection `top.msg_connect`, the synchronous `top.run`, the
asynchronous `top.start`, and `top.stop`.  `stopped` is never emitted by
this module (run_sim.py line 159 leaves `top.stop()` commented out). -/
inductive Event where
  | constructed (n : Node)
  | fileCreated (path : String)
  | connected (src : Node × Port) (dst : Node × Port)
  | msgConnected (src : Node × String) (dst : Node × Port)
  | ran (max_nout : Nat)
  | started (max_nout : Nat)
  | stopped
  deriving DecidableEq, Repr

/-- Errors the embedding distinguishes: a type error raised by a block
constructor handed an invalid item-size descriptor (carrying the name of
the block being constructed), and the `TypeError` Python raises when a
`None` connection descriptor is subscripted (`connections[0]`). -/
inductive GrError where
  | typeError (block : String)
  | noneNotSubscriptable
  deriving DecidableEq, Repr

/-- Result of one call to a run function: the event trace up to the
return or the raised error, the error if one was raised, whether control
returned normally to the caller, the number of items in the output file
at that point, and how many poll-loop sleeps were executed. -/
structure RunOutcome where
  events : List Event
  error : Option GrError
  returned : Bool
  written_items : Nat
  sleeps : Nat
  deriving DecidableEq, Repr

/-- Modelled from the spec: one millisecond, the duration of each poll
sleep (`time.sleep(1e-3)`, run_sim.py line 156; spec: busy-wait polling
with ~1 millisecond sleep intervals). -/
def POLL_SLEEP_MS : Nat := 1

/-- The busy-wait loop of run_sim.py lines 155-156, made total with a
fuel bound on the number of condition checks:
`while head.nitems_written(0) < n_items: time.sleep(1e-3)`.
`written t` is the limiter's written-item counter observed at the t-th
check.  Returns the check index at which the loop exits (equal to the
number of sleeps executed before it), or `none` if the loop is still
running after `fuel` checks. -/
def pollLoop (written : Nat → Nat) (n_items : Nat) : Nat → Nat → Option Nat
  | _, 0 => none
  | t, fuel + 1 =>
      if n_items ≤ written t then some t else pollLoop written n_items (t + 1) fuel

/-- The poll-loop exit index starting from the first check. -/
def pollExitIdx (written : Nat → Nat) (n_items : Nat) (fuel : Nat) : Option Nat :=
  pollLoop written n_items 0 fuel

/-- Modelled from the spec: number of elements obtained by reading a raw
output file of `nbytes` bytes back as elements of size `itemsize`
(`np.fromfile`), i.e. the floor quotient. -/
def readBackCount (nbytes itemsize : Nat) : Nat := nbytes / itemsize

/-- `run_file_source` (run_sim.py lines 60-106).  The embedding follows
the source order: construct `blocks.file_source` from `file_spec`
(line 88), construct the `blocks.head` limiter and `blocks.file_sink`
from `out_spec` (lines 92-95), wire the graph either positionally or at
the ports of the `connections` descriptor (lines 98-103), and run
synchronously (line 106).  `comp_out_len` stands for the duck-typed
component: the number of items its output port delivers during the run.
Modelled from the spec: a block constructor given an invalid item-size
descriptor raises a type error; `file_sink` construction creates the
output file; `top.run` drives the graph until the `head` limiter has
passed `n_items` items, so the file receives
`min comp_out_len n_items` items; a chained positional
`top.connect(a, b, c, d)` is the pairwise port-0 connections. -/
def run_file_source (comp_out_len : Nat) (file_spec : FileSpec)
    (out_spec : OutSpec) (connections : Option (Port × Port)) : RunOutcome :=
  match file_spec.type with
  | none =>
      { events := [], error := some (GrError.typeError ("file_source")),
        returned := false, written_items := 0, sleeps := 0 }
  | some in_size =>
    let file_src := Node.fileSource in_size file_spec.path file_spec.rep
    match out_spec.type with
    | none =>
        { events := [Event.constructed file_src],
          error := some (GrError.typeError ("head")),
          returned := false, written_items := 0, sleeps := 0 }
    | some out_size =>
      let hd := Node.head out_size out_spec.n_items
      let file_sink := Node.fileSink out_size out_spec.path
      let wiring : List Event :=
        match connections with
        | none =>
            [Event.connected (file_src, 0) (Node.component, 0),
             Event.connected (Node.component, 0) (hd, 0),
             Event.connected (hd, 0) (file_sink, 0)]
        | some c =>
            [Event.connected (file_src, 0) (Node.component, c.1),
             Event.connected (Node.component, c.2) (hd, 0),
             Event.connected (hd, 0) (file_sink, 0)]
      { events :=
          [Event.constructed file_src, Event.constructed hd,
           Event.constructed file_sink, Event.fileCreated out_spec.path]
          ++ wiring ++ [Event.ran out_spec.n_items],
        error := none, returned := true,
        written_items := min comp_out_len out_spec.n_items, sleeps := 0 }

/-- `run_msg_source` (run_sim.py lines 108-159).  Source order: construct
`blocks.message_strobe` from `msg_spec` (lines 137-138; for a string
payload `"".join(msg)` is the payload itself), construct the `head`
limiter and `file_sink` from `out_spec` (lines 141-144), wire
`(source, "strobe")` to the component's port `connections[0]` and the
component's port `connections[1]` to the limiter (lines 147-149) — the
descriptor is subscripted unconditionally, so `connections = None`
raises there — then `top.start` (line 154) and the busy-wait loop on
`head.nitems_written(0)` (lines 155-156).  No `top.stop` follows
(line 159, commented out).  `component_written t` stands for the
duck-typed component: the item count its output has delivered to the
limiter by the t-th poll check; `fuel` bounds the polls the model
unrolls.  Modelled from the spec: constructor type errors and file
creation as in `run_file_source`; the `head` limiter passes through at
most `n_items` items, so the observed counter is
`min (component_written t) n_items`. -/
def run_msg_source (component_written : Nat → Nat) (fuel : Nat)
    (msg_spec : MsgSpec) (out_spec : OutSpec)
    (connections : Option (Port × Port)) : RunOutcome :=
  let source := Node.messageStrobe msg_spec.message msg_spec.period_ms
  match out_spec.type with
  | none =>
      { events := [Event.constructed source],
        error := some (GrError.typeError ("head")),
        returned := false, written_items := 0, sleeps := 0 }
  | some out_size =>
    let hd := Node.head out_size out_spec.n_items
    let file_sink := Node.fileSink out_size out_spec.path
    let built :=
      [Event.constructed source, Event.constructed hd,
       Event.constructed file_sink, Event.fileCreated out_spec.path]
    match connections with
    | none =>
        { events := built, error := some GrError.noneNotSubscriptable,
          returned := false, written_items := 0, sleeps := 0 }
    | some c =>
      let observed := fun t => min (component_written t) out_spec.n_items
      let trace :=
        built ++
        [Event.msgConnected (source, ("strobe")) (Node.component, c.1),
         Event.connected (Node.component, c.2) (hd, 0),
         Event.connected (hd, 0) (file_sink, 0),
         Event.started out_spec.n_items]
      match pollExitIdx observed out_spec.n_items fuel with
      | some t =>
          { events := trace, error := none, returned := true,
            written_items := observed t, sleeps := t }
      | none =>
          { events := trace, error := none, returned := false,
            written_items := observed fuel, sleeps := fuel }

/-- The call `run_file_source(component)` with every specification
argument left to its Python default (run_sim.py lines 60-62). -/
def run_file_source_defaults (comp_out_len : Nat) : RunOutcome :=
  run_file_source comp_out_len DEFAULT_FILE_SPEC DEFAULT_OUT_SPEC none

/-- The call `run_msg_source(component)` with every specification
argument left to its Python default (run_sim.py lines 108-110). -/
def run_msg_source_defaults (component_written : Nat → Nat) (fuel : Nat) :
    RunOutcome :=
  run_msg_source component_written fuel DEFAULT_MESSAGE_SPEC DEFAULT_OUT_SPEC none

/-- Whether an event is a `top.start` call (at any max item count). -/
def Event.isStart : Event → Bool
  | Event.started _ => true
  | _ => false

/-- Whether an event creates a file (at any path). -/
def Event.isFileCreation : Event → Bool
  | Event.fileCreated _ => true
  | _ => false

theorem pollLoop_some_spec (written : Nat → Nat) (N : Nat) :
    ∀ fuel t r, pollLoop written N t fuel = some r →
      t ≤ r ∧ r < t + fuel ∧ N ≤ written r ∧ ∀ u, t ≤ u → u < r → written u < N := by
  intro fuel
  induction fuel with
  | zero => intro t r h; simp [pollLoop] at h
  | succ n ih =>
      intro t r h
      simp only [pollLoop] at h
      by_cases hc : N ≤ written t
      · rw [if_pos hc] at h
        cases h
        exact ⟨Nat.le_refl _, by omega, hc, by omega⟩
      · rw [if_neg hc] at h
        obtain ⟨h1, h2, h3, h4⟩ := ih (t + 1) r h
        refine ⟨by omega, by omega, h3, ?_⟩
        intro u hu hur
        rcases Nat.eq_or_lt_of_le hu with heq | hlt
        · subst heq; omega
        · exact h4 u (by omega) hur

theorem pollLoop_exit_exists (written : Nat → Nat) (N : Nat) :
    ∀ fuel t t0, t ≤ t0 → t0 < t + fuel → N ≤ written t0 →
      ∃ r, pollLoop written N t fuel = some r := by
  intro fuel
  induction fuel with
  | zero => intro t t0 h1 h2 _; omega
  | succ n ih =>
      intro t t0 h1 h2 h3
      simp only [pollLoop]
      by_cases hc : N ≤ written t
      · exact ⟨t, by rw [if_pos hc]⟩
      · rw [if_neg hc]
        have ht0 : t + 1 ≤ t0 := by
          rcases Nat.eq_or_lt_of_le h1 with heq | hlt
          · subst heq; omega
          · omega
        exact ih (t + 1) t0 ht0 (by omega) h3

theorem pollLoop_none_of_never (written : Nat → Nat) (N : Nat)
    (h : ∀ u, written u < N) : ∀ fuel t, pollLoop written N t fuel = none := by
  intro fuel
  induction fuel with
  | zero => intro t; rfl
  | succ n ih =>
      intro t
      have ht := h t
      simp only [pollLoop]
      rw [if_neg (by omega)]
      exact ih (t + 1)

theorem dtype_domain (s : String) :
    (DTYPE s).isSome ↔
      (s = "BYTE" ∨ s = "FLOAT" ∨ s = "COMPLEX" ∨ s = "SHORT" ∨ s = "INT") := by
  unfold DTYPE
  split <;> simp_all

theorem file_ext_domain (s : String) :
    (FILE_EXT s).isSome ↔
      (s = "BYTE" ∨ s = "FLOAT" ∨ s = "COMPLEX" ∨ s = "SHORT" ∨ s = "INT") := by
  unfold FILE_EXT
  split <;> simp_all

/-- C9: the element type tag mapping has exactly the five semantic names
BYTE, FLOAT, COMPLEX, SHORT and INT, each mapped to the runtime's binary
size descriptor, and the file-extension convention associates
COMPLEX with .32cf, BYTE with .byte, FLOAT with .32rf, INT with .32i and
SHORT with .16i, on exactly the same five names. -/
theorem C9_dtype_and_file_ext_enumerated :
    (∀ s : String, (DTYPE s).isSome ↔
      (s = "BYTE" ∨ s = "FLOAT" ∨ s = "COMPLEX" ∨ s = "SHORT" ∨ s = "INT")) ∧
    DTYPE ("BYTE") = some (gr_sizeof_char * 1) ∧
    DTYPE ("FLOAT") = some gr_sizeof_float ∧
    DTYPE ("COMPLEX") = some gr_sizeof_gr_complex ∧
    DTYPE ("SHORT") = some gr_sizeof_short ∧
    DTYPE ("INT") = some gr_sizeof_int ∧
    FILE_EXT ("COMPLEX") = some (".32cf") ∧
    FILE_EXT ("BYTE") = some (".byte") ∧
    FILE_EXT ("FLOAT") = some (".32rf") ∧
    FILE_EXT ("INT") = some (".32i") ∧
    FILE_EXT ("SHORT") = some (".16i") ∧
    (∀ s : String, (FILE_EXT s).isSome ↔
      (s = "BYTE" ∨ s = "FLOAT" ∨ s = "COMPLEX" ∨ s = "SHORT" ∨ s = "INT")) :=
  ⟨dtype_domain, rfl, rfl, rfl, rfl, rfl, rfl, rfl, rfl, rfl, rfl, file_ext_domain⟩

/-- C10: with the specification arguments omitted, the fixed defaults
are used: file spec {path "", type byte, repeat true}, output spec
{path "", type byte, n_items 10000}, message spec
{message "hello world", period 300 ms}. -/
theorem C10_default_specs :
    DEFAULT_FILE_SPEC =
      { path := "", type := some (gr_sizeof_char * 1), rep := true } ∧
    DEFAULT_OUT_SPEC =
      { path := "", type := some gr_sizeof_char, n_items := 10000 } ∧
    DEFAULT_MESSAGE_SPEC = { message := "hello world", period_ms := 300 } ∧
    (∀ L, run_file_source_defaults L =
      run_file_source L DEFAULT_FILE_SPEC DEFAULT_OUT_SPEC none) ∧
    (∀ w fuel, run_msg_source_defaults w fuel =
      run_msg_source w fuel DEFAULT_MESSAGE_SPEC DEFAULT_OUT_SPEC none) :=
  ⟨rfl, rfl, rfl, fun _ => rfl, fun _ _ => rfl⟩

/-- C3: for the file-driven run, omitting the connection descriptor
produces exactly the same outcome (wiring included) as the explicit
descriptor (0, 0). -/
theorem C3_default_wiring_equals_explicit_zero_zero
    (L : Nat) (fs : FileSpec) (os : OutSpec) :
    run_file_source L fs os none = run_file_source L fs os (some (0, 0)) := by
  rcases fs with ⟨fp, fty, fr⟩
  rcases os with ⟨op, oty, n⟩
  cases fty <;> cases oty <;> rfl

theorem run_file_source_eq (L : Nat) (fs : FileSpec) (os : OutSpec)
    (conns : Option (Port × Port)) (si so : Nat)
    (hf : fs.type = some si) (ho : os.type = some so) :
    run_file_source L fs os conns =
      { events :=
          [Event.constructed (Node.fileSource si fs.path fs.rep),
           Event.constructed (Node.head so os.n_items),
           Event.constructed (Node.fileSink so os.path),
           Event.fileCreated os.path,
           Event.connected (Node.fileSource si fs.path fs.rep, 0)
             (Node.component, (conns.getD (0, 0)).1),
           Event.connected (Node.component, (conns.getD (0, 0)).2)
             (Node.head so os.n_items, 0),
           Event.connected (Node.head so os.n_items, 0)
             (Node.fileSink so os.path, 0),
           Event.ran os.n_items],
        error := none, returned := true,
        written_items := min L os.n_items, sleeps := 0 } := by
  unfold run_file_source
  rw [hf, ho]
  cases conns <;> rfl

/-- C1: a file-driven run with valid element types builds the graph
file-source → component → limiter → file-sink, with the limiter bounded
to `n_items` and the sink at the output path, raises no error, and — the
component's output delivering at least `n_items` items — the output
file, read back at the output element size, contains exactly `n_items`
elements. -/
theorem C1_file_run_builds_graph_and_writes_n_items
    (L : Nat) (fs : FileSpec) (os : OutSpec) (connections : Option (Port × Port))
    (si so : Nat) (hf : fs.type = some si) (ho : os.type = some so)
    (hL : os.n_items ≤ L) (hso : 0 < so) :
    (run_file_source L fs os connections).error = none ∧
    (run_file_source L fs os connections).returned = true ∧
    Event.constructed (Node.head so os.n_items) ∈
      (run_file_source L fs os connections).events ∧
    Event.fileCreated os.path ∈ (run_file_source L fs os connections).events ∧
    (∃ p q : Port,
      Event.connected (Node.fileSource si fs.path fs.rep, 0) (Node.component, p) ∈
        (run_file_source L fs os connections).events ∧
      Event.connected (Node.component, q) (Node.head so os.n_items, 0) ∈
        (run_file_source L fs os connections).events ∧
      Event.connected (Node.head so os.n_items, 0) (Node.fileSink so os.path, 0) ∈
        (run_file_source L fs os connections).events) ∧
    (run_file_source L fs os connections).written_items = os.n_items ∧
    readBackCount ((run_file_source L fs os connections).written_items * so) so =
      os.n_items := by
  rw [run_file_source_eq L fs os connections si so hf ho]
  refine ⟨rfl, rfl, by simp, by simp,
    ⟨(connections.getD (0, 0)).1, (connections.getD (0, 0)).2, by simp, by simp, by simp⟩,
    ?_, ?_⟩
  · simpa using min_eq_right hL
  · simp only [readBackCount, min_eq_right hL]
    exact Nat.mul_div_cancel _ hso

/-- Witness for C1 at a concrete input: a complex-typed run limited to 3
items with a component delivering 5. -/
theorem C1_file_run_builds_graph_and_writes_n_items_witness :
    (run_file_source 5 ⟨("/tmp/input.32cf"), DTYPE ("COMPLEX"), true⟩
        ⟨("/tmp/output.32cf"), DTYPE ("COMPLEX"), 3⟩ none).error = none ∧
    (run_file_source 5 ⟨("/tmp/input.32cf"), DTYPE ("COMPLEX"), true⟩
        ⟨("/tmp/output.32cf"), DTYPE ("COMPLEX"), 3⟩ none).returned = true ∧
    Event.constructed (Node.head 8 3) ∈
      (run_file_source 5 ⟨("/tmp/input.32cf"), DTYPE ("COMPLEX"), true⟩
        ⟨("/tmp/output.32cf"), DTYPE ("COMPLEX"), 3⟩ none).events ∧
    Event.fileCreated ("/tmp/output.32cf") ∈
      (run_file_source 5 ⟨("/tmp/input.32cf"), DTYPE ("COMPLEX"), true⟩
        ⟨("/tmp/output.32cf"), DTYPE ("COMPLEX"), 3⟩ none).events ∧
    (∃ p q : Port,
      Event.connected (Node.fileSource 8 ("/tmp/input.32cf") true, 0) (Node.component, p) ∈
        (run_file_source 5 ⟨("/tmp/input.32cf"), DTYPE ("COMPLEX"), true⟩
          ⟨("/tmp/output.32cf"), DTYPE ("COMPLEX"), 3⟩ none).events ∧
      Event.connected (Node.component, q) (Node.head 8 3, 0) ∈
        (run_file_source 5 ⟨("/tmp/input.32cf"), DTYPE ("COMPLEX"), true⟩
          ⟨("/tmp/output.32cf"), DTYPE ("COMPLEX"), 3⟩ none).events ∧
      Event.connected (Node.head 8 3, 0) (Node.fileSink 8 ("/tmp/output.32cf"), 0) ∈
        (run_file_source 5 ⟨("/tmp/input.32cf"), DTYPE ("COMPLEX"), true⟩
          ⟨("/tmp/output.32cf"), DTYPE ("COMPLEX"), 3⟩ none).events) ∧
    (run_file_source 5 ⟨("/tmp/input.32cf"), DTYPE ("COMPLEX"), true⟩
        ⟨("/tmp/output.32cf"), DTYPE ("COMPLEX"), 3⟩ none).written_items = 3 ∧
    readBackCount
      ((run_file_source 5 ⟨("/tmp/input.32cf"), DTYPE ("COMPLEX"), true⟩
        ⟨("/tmp/output.32cf"), DTYPE ("COMPLEX"), 3⟩ none).written_items * 8) 8 = 3 :=
  C1_file_run_builds_graph_and_writes_n_items 5
    ⟨("/tmp/input.32cf"), DTYPE ("COMPLEX"), true⟩
    ⟨("/tmp/output.32cf"), DTYPE ("COMPLEX"), 3⟩ none 8 8
    (by decide) (by decide) (by decide) (by decide)

theorem run_msg_source_events_eq (w : Nat → Nat) (fuel : Nat) (ms : MsgSpec)
    (os : OutSpec) (c : Port × Port) (so : Nat) (ho : os.type = some so) :
    (run_msg_source w fuel ms os (some c)).events =
      [Event.constructed (Node.messageStrobe ms.message ms.period_ms),
       Event.constructed (Node.head so os.n_items),
       Event.constructed (Node.fileSink so os.path),
       Event.fileCreated os.path,
       Event.msgConnected (Node.messageStrobe ms.message ms.period_ms, ("strobe"))
         (Node.component, c.1),
       Event.connected (Node.component, c.2) (Node.head so os.n_items, 0),
       Event.connected (Node.head so os.n_items, 0) (Node.fileSink so os.path, 0),
       Event.started os.n_items] := by
  unfold run_msg_source
  rw [ho]
  cases hpoll : pollExitIdx (fun t => min (w t) os.n_items) os.n_items fuel <;>
    simp [hpoll]

/-- C4: an explicit connection descriptor (p_in, p_out) routes the
source — file source in the file-driven run, message strobe in the
message-driven run — to the component's port p_in, the component's port
p_out to the limiter, and the limiter to the file sink. -/
theorem C4_explicit_ports_routed
    (L : Nat) (w : Nat → Nat) (fuel : Nat) (fs : FileSpec) (ms : MsgSpec)
    (os : OutSpec) (p_in p_out : Port) (si so : Nat)
    (hf : fs.type = some si) (ho : os.type = some so) :
    (Event.connected (Node.fileSource si fs.path fs.rep, 0) (Node.component, p_in) ∈
       (run_file_source L fs os (some (p_in, p_out))).events ∧
     Event.connected (Node.component, p_out) (Node.head so os.n_items, 0) ∈
       (run_file_source L fs os (some (p_in, p_out))).events ∧
     Event.connected (Node.head so os.n_items, 0) (Node.fileSink so os.path, 0) ∈
       (run_file_source L fs os (some (p_in, p_out))).events) ∧
    (Event.msgConnected (Node.messageStrobe ms.message ms.period_ms, ("strobe"))
       (Node.component, p_in) ∈
       (run_msg_source w fuel ms os (some (p_in, p_out))).events ∧
     Event.connected (Node.component, p_out) (Node.head so os.n_items, 0) ∈
       (run_msg_source w fuel ms os (some (p_in, p_out))).events ∧
     Event.connected (Node.head so os.n_items, 0) (Node.fileSink so os.path, 0) ∈
       (run_msg_source w fuel ms os (some (p_in, p_out))).events) := by
  rw [run_file_source_eq L fs os (some (p_in, p_out)) si so hf ho,
    run_msg_source_events_eq w fuel ms os (p_in, p_out) so ho]
  refine ⟨⟨by simp, by simp, by simp⟩, by simp, by simp, by simp⟩

/-- Witness for C4 at a concrete input: descriptor (2, 1) on byte-typed
specs. -/
theorem C4_explicit_ports_routed_witness :
    (Event.connected (Node.fileSource 1 ("/tmp/in.byte") false, 0) (Node.component, 2) ∈
       (run_file_source 9 ⟨("/tmp/in.byte"), DTYPE ("BYTE"), false⟩
         ⟨("/tmp/out.byte"), DTYPE ("BYTE"), 4⟩ (some (2, 1))).events ∧
     Event.connected (Node.component, 1) (Node.head 1 4, 0) ∈
       (run_file_source 9 ⟨("/tmp/in.byte"), DTYPE ("BYTE"), false⟩
         ⟨("/tmp/out.byte"), DTYPE ("BYTE"), 4⟩ (some (2, 1))).events ∧
     Event.connected (Node.head 1 4, 0) (Node.fileSink 1 ("/tmp/out.byte"), 0) ∈
       (run_file_source 9 ⟨("/tmp/in.byte"), DTYPE ("BYTE"), false⟩
         ⟨("/tmp/out.byte"), DTYPE ("BYTE"), 4⟩ (some (2, 1))).events) ∧
    (Event.msgConnected (Node.messageStrobe ("hi") 250, ("strobe")) (Node.component, 2) ∈
       (run_msg_source (fun t => t) 7 ⟨("hi"), 250⟩
         ⟨("/tmp/out.byte"), DTYPE ("BYTE"), 4⟩ (some (2, 1))).events ∧
     Event.connected (Node.component, 1) (Node.head 1 4, 0) ∈
       (run_msg_source (fun t => t) 7 ⟨("hi"), 250⟩
         ⟨("/tmp/out.byte"), DTYPE ("BYTE"), 4⟩ (some (2, 1))).events ∧
     Event.connected (Node.head 1 4, 0) (Node.fileSink 1 ("/tmp/out.byte"), 0) ∈
       (run_msg_source (fun t => t) 7 ⟨("hi"), 250⟩
         ⟨("/tmp/out.byte"), DTYPE ("BYTE"), 4⟩ (some (2, 1))).events) :=
  C4_explicit_ports_routed 9 (fun t => t) 7
    ⟨("/tmp/in.byte"), DTYPE ("BYTE"), false⟩ ⟨("hi"), 250⟩
    ⟨("/tmp/out.byte"), DTYPE ("BYTE"), 4⟩ 2 1 1 1 (by decide) (by decide)

theorem run_msg_source_exit_spec (w : Nat → Nat) (fuel : Nat) (ms : MsgSpec)
    (os : OutSpec) (c : Port × Port) (so t : Nat) (ho : os.type = some so)
    (hpoll : pollExitIdx (fun u => min (w u) os.n_items) os.n_items fuel = some t) :
    (run_msg_source w fuel ms os (some c)).returned = true ∧
    (run_msg_source w fuel ms os (some c)).error = none ∧
    (run_msg_source w fuel ms os (some c)).written_items = min (w t) os.n_items ∧
    (run_msg_source w fuel ms os (some c)).sleeps = t := by
  unfold run_msg_source
  rw [ho]
  simp [hpoll]

/-- C2: a message-driven run with a valid output type starts the graph
asynchronously and then polls the limiter's written-item count with
1 ms sleeps, returning only once that count has reached `n_items`
(single polls see a smaller count until the exit poll), and the output
file then holds exactly `n_items` items. -/
theorem C2_msg_run_blocks_until_n_items
    (w : Nat → Nat) (fuel : Nat) (ms : MsgSpec) (os : OutSpec) (c : Port × Port)
    (so : Nat) (ho : os.type = some so)
    (t0 : Nat) (ht0 : t0 < fuel) (hw : os.n_items ≤ w t0) :
    Event.started os.n_items ∈ (run_msg_source w fuel ms os (some c)).events ∧
    ∃ t, (run_msg_source w fuel ms os (some c)).returned = true ∧
      (run_msg_source w fuel ms os (some c)).error = none ∧
      (run_msg_source w fuel ms os (some c)).sleeps * POLL_SLEEP_MS = t ∧
      (∀ u, u < t → min (w u) os.n_items < os.n_items) ∧
      os.n_items ≤ w t ∧
      (run_msg_source w fuel ms os (some c)).written_items = os.n_items := by
  have hobs : os.n_items ≤ min (w t0) os.n_items := le_min hw le_rfl
  obtain ⟨t, hpoll⟩ :=
    pollLoop_exit_exists (fun u => min (w u) os.n_items) os.n_items fuel 0 t0
      (Nat.zero_le _) (by omega) hobs
  obtain ⟨-, -, hNle, hbefore⟩ :=
    pollLoop_some_spec (fun u => min (w u) os.n_items) os.n_items fuel 0 t hpoll
  have hwt : os.n_items ≤ w t := (le_min_iff.mp hNle).1
  obtain ⟨hret, herr, hwr, hsl⟩ :=
    run_msg_source_exit_spec w fuel ms os c so t ho hpoll
  refine ⟨?_, t, hret, herr, ?_, ?_, hwt, ?_⟩
  · rw [run_msg_source_events_eq w fuel ms os c so ho]; simp
  · rw [hsl]; simp [POLL_SLEEP_MS]
  · intro u hu; exact hbefore u (Nat.zero_le _) hu
  · rw [hwr]; exact min_eq_right hwt

/-- Witness for C2 at a concrete input: the limiter counter reaches the
requested 2 items at the third poll. -/
theorem C2_msg_run_blocks_until_n_items_witness :
    Event.started 2 ∈
      (run_msg_source (fun t => t) 5 ⟨("hi"), 300⟩
        ⟨("/tmp/o.byte"), DTYPE ("BYTE"), 2⟩ (some (0, 0))).events ∧
    ∃ t, (run_msg_source (fun t => t) 5 ⟨("hi"), 300⟩
        ⟨("/tmp/o.byte"), DTYPE ("BYTE"), 2⟩ (some (0, 0))).returned = true ∧
      (run_msg_source (fun t => t) 5 ⟨("hi"), 300⟩
        ⟨("/tmp/o.byte"), DTYPE ("BYTE"), 2⟩ (some (0, 0))).error = none ∧
      (run_msg_source (fun t => t) 5 ⟨("hi"), 300⟩
        ⟨("/tmp/o.byte"), DTYPE ("BYTE"), 2⟩ (some (0, 0))).sleeps * POLL_SLEEP_MS = t ∧
      (∀ u, u < t → min ((fun t => t) u) 2 < 2) ∧
      2 ≤ (fun t => t) t ∧
      (run_msg_source (fun t => t) 5 ⟨("hi"), 300⟩
        ⟨("/tmp/o.byte"), DTYPE ("BYTE"), 2⟩ (some (0, 0))).written_items = 2 :=
  C2_msg_run_blocks_until_n_items (fun t => t) 5 ⟨("hi"), 300⟩
    ⟨("/tmp/o.byte"), DTYPE ("BYTE"), 2⟩ (0, 0) 1 (by decide) 2 (by decide) (by decide)

/-- C5: the polling loop has no timeout: if the limiter's count never
reaches `n_items`, then for every fuel bound the loop is still running
(the call has consumed all its polls and has not returned). -/
theorem C5_poll_loop_never_terminates
    (w : Nat → Nat) (ms : MsgSpec) (os : OutSpec) (c : Port × Port) (so : Nat)
    (ho : os.type = some so) (hnever : ∀ t, w t < os.n_items) :
    ∀ fuel, (run_msg_source w fuel ms os (some c)).returned = false ∧
      (run_msg_source w fuel ms os (some c)).sleeps = fuel := by
  intro fuel
  have hmin : ∀ u, min (w u) os.n_items < os.n_items :=
    fun u => lt_of_le_of_lt (min_le_left _ _) (hnever u)
  have hpoll : pollExitIdx (fun u => min (w u) os.n_items) os.n_items fuel = none :=
    pollLoop_none_of_never (fun u => min (w u) os.n_items) os.n_items hmin fuel 0
  unfold run_msg_source
  rw [ho]
  simp [hpoll]

/-- Witness for C5 at a concrete input: a component that never delivers
an item, with fuel 17. -/
theorem C5_poll_loop_never_terminates_witness :
    (run_msg_source (fun _ => 0) 17 ⟨("hi"), 300⟩
      ⟨("/tmp/o.byte"), DTYPE ("BYTE"), 4⟩ (some (0, 0))).returned = false ∧
    (run_msg_source (fun _ => 0) 17 ⟨("hi"), 300⟩
      ⟨("/tmp/o.byte"), DTYPE ("BYTE"), 4⟩ (some (0, 0))).sleeps = 17 :=
  C5_poll_loop_never_terminates (fun _ => 0) ⟨("hi"), 300⟩
    ⟨("/tmp/o.byte"), DTYPE ("BYTE"), 4⟩ (0, 0) 1 (by decide)
    (fun t => show (0 : Nat) < 4 by decide) 17

/-- C6: an unsupported element type tag in `file_spec` or `out_spec`
makes the run raise a type error at node construction, before any file
is created at the output path: the trace holds no file-creation event. -/
theorem C6_unsupported_type_errors_before_file_creation
    (L : Nat) (w : Nat → Nat) (fuel : Nat) (fs : FileSpec) (ms : MsgSpec)
    (os : OutSpec) (connections : Option (Port × Port)) :
    ((fs.type = none ∨ os.type = none) →
      (∃ b, (run_file_source L fs os connections).error =
        some (GrError.typeError b)) ∧
      (∀ e ∈ (run_file_source L fs os connections).events,
        e.isFileCreation = false)) ∧
    (os.type = none →
      (∃ b, (run_msg_source w fuel ms os connections).error =
        some (GrError.typeError b)) ∧
      (∀ e ∈ (run_msg_source w fuel ms os connections).events,
        e.isFileCreation = false)) := by
  constructor
  · intro h
    rcases hft : fs.type with _ | si
    · refine ⟨⟨("file_source"), ?_⟩, ?_⟩ <;>
        simp [run_file_source, hft, Event.isFileCreation]
    · rcases hot : os.type with _ | so
      · refine ⟨⟨("head"), ?_⟩, ?_⟩ <;>
          simp [run_file_source, hft, hot, Event.isFileCreation]
      · rw [hft, hot] at h
        simp at h
  · intro h
    rcases hot : os.type with _ | so
    · refine ⟨⟨("head"), ?_⟩, ?_⟩ <;>
        simp [run_msg_source, hot, Event.isFileCreation]
    · rw [hot] at h
      simp at h

/-- Witness for C6 at a concrete input: the unsupported tag DOUBLE, whose
`DTYPE` lookup is `none`. -/
theorem C6_unsupported_type_errors_before_file_creation_witness :
    ((∃ b, (run_file_source 5 ⟨("/tmp/in.bin"), DTYPE ("DOUBLE"), true⟩
        ⟨("/tmp/out.bin"), DTYPE ("DOUBLE"), 3⟩ none).error =
        some (GrError.typeError b)) ∧
      (∀ e ∈ (run_file_source 5 ⟨("/tmp/in.bin"), DTYPE ("DOUBLE"), true⟩
        ⟨("/tmp/out.bin"), DTYPE ("DOUBLE"), 3⟩ none).events,
        e.isFileCreation = false)) ∧
    ((∃ b, (run_msg_source (fun t => t) 5 ⟨("hi"), 300⟩
        ⟨("/tmp/out.bin"), DTYPE ("DOUBLE"), 3⟩ none).error =
        some (GrError.typeError b)) ∧
      (∀ e ∈ (run_msg_source (fun t => t) 5 ⟨("hi"), 300⟩
        ⟨("/tmp/out.bin"), DTYPE ("DOUBLE"), 3⟩ none).events,
        e.isFileCreation = false)) :=
  ⟨(C6_unsupported_type_errors_before_file_creation 5 (fun t => t) 5
      ⟨("/tmp/in.bin"), DTYPE ("DOUBLE"), true⟩ ⟨("hi"), 300⟩
      ⟨("/tmp/out.bin"), DTYPE ("DOUBLE"), 3⟩ none).1 (Or.inl (by decide)),
   (C6_unsupported_type_errors_before_file_creation 5 (fun t => t) 5
      ⟨("/tmp/in.bin"), DTYPE ("DOUBLE"), true⟩ ⟨("hi"), 300⟩
      ⟨("/tmp/out.bin"), DTYPE ("DOUBLE"), 3⟩ none).2 (by decide)⟩

/-- C7: once the target count is observed, the message-driven run
returns with the graph started and never stopped: the trace ends with no
stop event, leaving the started graph active. -/
theorem C7_no_stop_graph_left_running
    (w : Nat → Nat) (fuel : Nat) (ms : MsgSpec) (os : OutSpec) (c : Port × Port)
    (so : Nat) (ho : os.type = some so)
    (t0 : Nat) (ht0 : t0 < fuel) (hw : os.n_items ≤ w t0) :
    (run_msg_source w fuel ms os (some c)).returned = true ∧
    Event.started os.n_items ∈ (run_msg_source w fuel ms os (some c)).events ∧
    Event.stopped ∉ (run_msg_source w fuel ms os (some c)).events := by
  have hobs : os.n_items ≤ min (w t0) os.n_items := le_min hw le_rfl
  obtain ⟨t, hpoll⟩ :=
    pollLoop_exit_exists (fun u => min (w u) os.n_items) os.n_items fuel 0 t0
      (Nat.zero_le _) (by omega) hobs
  obtain ⟨hret, -, -, -⟩ := run_msg_source_exit_spec w fuel ms os c so t ho hpoll
  refine ⟨hret, ?_, ?_⟩ <;>
    rw [run_msg_source_events_eq w fuel ms os c so ho] <;> simp

/-- Witness for C7 at a concrete input: the counter reaches the
requested 2 items within 5 polls. -/
theorem C7_no_stop_graph_left_running_witness :
    (run_msg_source (fun t => t) 5 ⟨("hi"), 300⟩
      ⟨("/tmp/o.byte"), DTYPE ("BYTE"), 2⟩ (some (0, 0))).returned = true ∧
    Event.started 2 ∈ (run_msg_source (fun t => t) 5 ⟨("hi"), 300⟩
      ⟨("/tmp/o.byte"), DTYPE ("BYTE"), 2⟩ (some (0, 0))).events ∧
    Event.stopped ∉ (run_msg_source (fun t => t) 5 ⟨("hi"), 300⟩
      ⟨("/tmp/o.byte"), DTYPE ("BYTE"), 2⟩ (some (0, 0))).events :=
  C7_no_stop_graph_left_running (fun t => t) 5 ⟨("hi"), 300⟩
    ⟨("/tmp/o.byte"), DTYPE ("BYTE"), 2⟩ (0, 0) 1 (by decide) 2 (by decide) (by decide)

/-- C8: the message-driven runner requires a connection descriptor: with
`connections` absent the call fails before any execution starts (no
start event in the trace), and — the output type being valid, so that
node construction succeeds — the error is precisely the TypeError from
unconditionally subscripting `None` at the wiring step. -/
theorem C8_msg_source_requires_connections
    (w : Nat → Nat) (fuel : Nat) (ms : MsgSpec) (os : OutSpec) :
    (run_msg_source w fuel ms os none).error.isSome = true ∧
    (run_msg_source w fuel ms os none).returned = false ∧
    (∀ e ∈ (run_msg_source w fuel ms os none).events, e.isStart = false) ∧
    (∀ so, os.type = some so →
      (run_msg_source w fuel ms os none).error =
        some GrError.noneNotSubscriptable ∧
      (run_msg_source w fuel ms os none).sleeps = 0) := by
  rcases hot : os.type with _ | so <;>
    simp [run_msg_source, hot, Event.isStart]

/-- Witness for C8 at a concrete input: a byte-typed output spec and no
connection descriptor. -/
theorem C8_msg_source_requires_connections_witness :
    (run_msg_source (fun t => t) 5 ⟨("hi"), 300⟩
      ⟨("/tmp/o.byte"), DTYPE ("BYTE"), 2⟩ none).error.isSome = true ∧
    (run_msg_source (fun t => t) 5 ⟨("hi"), 300⟩
      ⟨("/tmp/o.byte"), DTYPE ("BYTE"), 2⟩ none).returned = false ∧
    (∀ e ∈ (run_msg_source (fun t => t) 5 ⟨("hi"), 300⟩
      ⟨("/tmp/o.byte"), DTYPE ("BYTE"), 2⟩ none).events, e.isStart = false) ∧
    ((run_msg_source (fun t => t) 5 ⟨("hi"), 300⟩
      ⟨("/tmp/o.byte"), DTYPE ("BYTE"), 2⟩ none).error =
      some GrError.noneNotSubscriptable ∧
     (run_msg_source (fun t => t) 5 ⟨("hi"), 300⟩
      ⟨("/tmp/o.byte"), DTYPE ("BYTE"), 2⟩ none).sleeps = 0) :=
  ⟨(C8_msg_source_requires_connections (fun t => t) 5 ⟨("hi"), 300⟩
      ⟨("/tmp/o.byte"), DTYPE ("BYTE"), 2⟩).1,
   (C8_msg_source_requires_connections (fun t => t) 5 ⟨("hi"), 300⟩
      ⟨("/tmp/o.byte"), DTYPE ("BYTE"), 2⟩).2.1,
   (C8_msg_source_requires_connections (fun t => t) 5 ⟨("hi"), 300⟩
      ⟨("/tmp/o.byte"), DTYPE ("BYTE"), 2⟩).2.2.1,
   (C8_msg_source_requires_connections (fun t => t) 5 ⟨("hi"), 300⟩
      ⟨("/tmp/o.byte"), DTYPE ("BYTE"), 2⟩).2.2.2 1 (by decide)⟩
